import Mathlib

/-!
Verification development for the Dolphin PowerPC JIT translator
(`Source/Core/Core/PowerPC/Jit64/Jit.cpp`) and the video FIFO synchronizer
(`Source/Core/VideoCommon/Fifo.cpp`).

The C++ functions relevant to the checked properties are shallowly embedded
as executable Lean definitions.  Machine pointers are represented as `Nat`
offsets from the owning buffer or as abstract `Nat` addresses; machine
integers that matter for the control flow (`s_sync_ticks`, tick budgets)
are represented as `Int`; byte buffers are `Nat → Nat` maps from offsets to
byte values.  Each definition mirrors one function of the source, keeping
its name where Lean allows.
-/

namespace Dolphin

/-! ## Fifo.cpp: constants -/

/-- `FIFO_SIZE` (Fifo.cpp line 37): 2 MiB video / aux buffer size. -/
def FIFO_SIZE : Nat := 2 * 1024 * 1024

/-- `GPU_TIME_SLOT_SIZE` (Fifo.cpp line 38). -/
def GPU_TIME_SLOT_SIZE : Int := 1000

/-- `GPFifo::GATHER_PIPE_SIZE`: one gather-pipe chunk is 32 bytes
(declared in `Core/HW/GPFifo.h`; the spec states it as 32 in section 6). -/
def GATHER_PIPE_SIZE : Nat := 32

/-! ## Fifo.cpp: aux FIFO (`PopFifoAuxBuffer`) -/

/-- The aux FIFO pointers, as offsets into `s_fifo_aux_data`. -/
structure AuxFifo where
  readPtr : Nat
  writePtr : Nat
  deriving DecidableEq, Repr

/-- `PopFifoAuxBuffer` (Fifo.cpp lines 248-253): returns the old read
pointer and advances it by `size`; there is no check against the write
pointer or the buffer end. -/
def PopFifoAuxBuffer (size : Nat) (s : AuxFifo) : Nat × AuxFifo :=
  (s.readPtr, { s with readPtr := s.readPtr + size })

/-! ## Fifo.cpp: video ring (`ReadDataFromFifo`) -/

/-- The video ring: the backing 2 MiB buffer plus the two pointers that are
live outside deterministic mode, as offsets from `s_video_buffer`.
`panicked` records whether `PanicAlertFmt` fired. -/
structure VideoRing where
  buf : Nat → Nat
  readPtr : Nat
  writePtr : Nat
  panicked : Bool

/-- The unconditional tail of `ReadDataFromFifo` (Fifo.cpp lines 272-276):
copy one gather-pipe chunk (`memory.CopyFromEmu`) to the write pointer and
advance it.  `chunk i` is the `i`-th byte read from guest memory. -/
def copyChunkToRing (chunk : Nat → Nat) (r : VideoRing) : VideoRing :=
  { r with
    buf := fun i =>
      if r.writePtr ≤ i ∧ i < r.writePtr + GATHER_PIPE_SIZE then chunk (i - r.writePtr)
      else r.buf i
    writePtr := r.writePtr + GATHER_PIPE_SIZE }

/-- `ReadDataFromFifo` (Fifo.cpp lines 256-277).  When the tail space
`FIFO_SIZE - writePtr` is smaller than one gather-pipe chunk: if the unread
length plus one chunk exceeds `FIFO_SIZE`, panic and return without
copying; otherwise memmove the unread bytes `[readPtr, writePtr)` to the
front and realign both pointers.  In all non-panicking cases, copy the new
chunk at the write pointer. -/
def ReadDataFromFifo (chunk : Nat → Nat) (r : VideoRing) : VideoRing :=
  if GATHER_PIPE_SIZE > FIFO_SIZE - r.writePtr then
    let existing_len := r.writePtr - r.readPtr
    if GATHER_PIPE_SIZE > FIFO_SIZE - existing_len then
      { r with panicked := true }
    else
      copyChunkToRing chunk
        { buf := fun i => if i < existing_len then r.buf (r.readPtr + i) else r.buf i
          readPtr := 0
          writePtr := existing_len
          panicked := r.panicked }
  else
    copyChunkToRing chunk r

end Dolphin

namespace Dolphin

/-! ## Fifo.cpp: single-core GPU slice (`RunGpuOnCpu`) -/

/-- One gather-pipe chunk pending in the command FIFO, as seen by the
single-core loop: its opcode-decoder cycle cost, and whether the command
processor read pointer sits on an enabled breakpoint when this chunk is
next (`AtBreakpoint`, Fifo.cpp lines 451-459). -/
structure FifoChunk where
  cycles : Nat
  atBreakpoint : Bool
  deriving DecidableEq, Repr

/-- Total decoder cycle cost of a chunk list. -/
def chunkCycles (l : List FifoChunk) : Nat := (l.map FifoChunk.cycles).sum

/-- C truncation-toward-zero conversion of a rational to an integer,
modelling the C cast `int(...)` (`Int.tdiv` truncates toward zero). -/
def truncTowardZero (q : ℚ) : Int := Int.tdiv q.num (q.den : Int)

/-- The `while` loop of `RunGpuOnCpu` (Fifo.cpp lines 491-527).  The loop
runs while `bFF_GPReadEnable` is set, `CPReadWriteDistance` is nonzero
(equivalently: a chunk is pending), the read pointer is not at a
breakpoint, and `available_ticks >= 0`.  Each iteration consumes one
gather-pipe chunk; outside deterministic mode it runs the opcode decoder
and deducts the decoded cycles from the budget (in deterministic mode the
decode is the CPU pre-run and no cycles are deducted, lines 495-499).
Returns the final tick budget and the unconsumed chunks. -/
def runGpuOnCpuLoop (det readEnable : Bool) : Int → List FifoChunk → Int × List FifoChunk
  | avail, [] => (avail, [])
  | avail, c :: rest =>
    if readEnable = true ∧ c.atBreakpoint = false ∧ 0 ≤ avail then
      runGpuOnCpuLoop det readEnable (if det then avail else avail - c.cycles) rest
    else
      (avail, c :: rest)

/-- Result of one `RunGpuOnCpu` call. -/
structure RunGpuResult where
  /-- The returned reschedule delay (-1 means idle, no reschedule). -/
  ret : Int
  /-- The value stored back into `s_sync_ticks`. -/
  newSyncTicks : Int
  /-- The tick budget left when the loop stopped (model observable). -/
  finalAvailable : Int
  /-- The chunks the loop did not consume. -/
  remaining : List FifoChunk
  deriving DecidableEq, Repr

/-- `RunGpuOnCpu` (Fifo.cpp lines 484-545).  `available_ticks` is
`int(ticks * overclock) + sync_ticks` (the float product is modelled in
exact rational arithmetic with C truncation); after the consuming loop,
`sync_ticks` is set to `min(available, 0)`; the function returns -1 when
`available >= 0` and `-available + GPU_TIME_SLOT_SIZE` otherwise. -/
def RunGpuOnCpu (det readEnable : Bool) (overclock : ℚ) (ticks syncTicks : Int)
    (chunks : List FifoChunk) : RunGpuResult :=
  let available := truncTowardZero ((ticks : ℚ) * overclock) + syncTicks
  let p := runGpuOnCpuLoop det readEnable available chunks
  { ret := if 0 ≤ p.1 then -1 else -p.1 + GPU_TIME_SLOT_SIZE
    newSyncTicks := min p.1 0
    finalAvailable := p.1
    remaining := p.2 }

/-! ## Fifo.cpp: dual-core CPU-side pacing (`WaitForGpuThread`) -/

/-- The sync-GPU tunables read by `WaitForGpuThread`. -/
structure SyncGpuConfig where
  minDistance : Int
  maxDistance : Int
  deriving DecidableEq, Repr

/-- Result of one `WaitForGpuThread` call. -/
structure WaitResult where
  /-- `s_sync_ticks` after the `fetch_add`. -/
  newSyncTicks : Int
  /-- The returned next reschedule interval (-1 means stop polling). -/
  ret : Int
  /-- Whether `RunGpu()` was called to wake the worker. -/
  ranGpu : Bool
  /-- Whether the call blocked on `s_sync_wakeup_event`. -/
  blockedOnEvent : Bool
  deriving DecidableEq, Repr

/-- `WaitForGpuThread` (Fifo.cpp lines 590-612).  `old` is the sync-tick
counter before the `fetch_add(ticks)`, `now = old + ticks`.  Returns -1
when `old >= 0` and the GPU mainloop is done; otherwise wakes the GPU when
`old < min <= now`, returns a longer delay when `now < min`, blocks on the
wakeup event when `now >= max`, and returns `GPU_TIME_SLOT_SIZE`. -/
def WaitForGpuThread (cfg : SyncGpuConfig) (gpuLoopIsDone : Bool)
    (syncTicks ticks : Int) : WaitResult :=
  let old := syncTicks
  let now := old + ticks
  if 0 ≤ old ∧ gpuLoopIsDone = true then
    { newSyncTicks := now, ret := -1, ranGpu := false, blockedOnEvent := false }
  else
    let woke := old < cfg.minDistance ∧ cfg.minDistance ≤ now
    if now < cfg.minDistance then
      { newSyncTicks := now, ret := GPU_TIME_SLOT_SIZE + cfg.minDistance - now
        ranGpu := decide woke, blockedOnEvent := false }
    else
      { newSyncTicks := now, ret := GPU_TIME_SLOT_SIZE
        ranGpu := decide woke, blockedOnEvent := decide (cfg.maxDistance ≤ now) }

/-! ## Fifo.cpp: deterministic GPU loop iteration (`RunGpuLoop`) -/

/-- The observable events of one deterministic-mode GPU loop iteration. -/
inductive GpuLoopEvent where
  | readSeenPtr
  | readWritePtr
  | runDecoder
  | storeSeenPtr
  deriving DecidableEq, Repr

/-- The deterministic-mode body of the `RunGpuLoop` lambda (Fifo.cpp lines
343-355), as the sequence of accesses to the shared pointers: it loads
`s_video_buffer_seen_ptr` first (line 346), loads
`s_video_buffer_write_ptr` second (line 347), and only when the observed
`write_ptr > seen_ptr` runs the opcode decoder and stores the observed
write pointer into `s_video_buffer_seen_ptr`. -/
def runGpuLoopDetIterEvents (seenObserved writeObserved : Nat) : List GpuLoopEvent :=
  [GpuLoopEvent.readSeenPtr, GpuLoopEvent.readWritePtr] ++
    (if seenObserved < writeObserved then
      [GpuLoopEvent.runDecoder, GpuLoopEvent.storeSeenPtr]
    else [])

/-- The pointer effect of one deterministic-mode iteration: decode exactly
when the observed `write_ptr` exceeds the observed `seen_ptr`, and in that
case advance `seen_ptr` to the observed write pointer (Fifo.cpp lines
349-354). -/
def runGpuLoopDetIterAdvance (seenObserved writeObserved : Nat) : Bool × Nat :=
  if seenObserved < writeObserved then (true, writeObserved) else (false, seenObserved)

/-! ## Jit.cpp: stack guard constants (lines 147-153) -/

def STACK_SIZE : Nat := 2 * 1024 * 1024
def SAFE_STACK_SIZE : Nat := 512 * 1024
def GUARD_SIZE : Nat := 0x10000
def GUARD_OFFSET : Nat := STACK_SIZE - SAFE_STACK_SIZE - GUARD_SIZE

/-! ## Jit.cpp: fault handling (`HandleFault`, `HandleStackFault`) -/

/-- The `Jit64` member state touched by the stack-fault path. -/
structure JitFaultState where
  /-- `m_enable_blr_optimization`. -/
  enableBlrOptimization : Bool
  /-- `m_cleanup_after_stackfault`. -/
  cleanupAfterStackfault : Bool
  /-- Whether the trigger guard page `[m_stack + GUARD_OFFSET, +GUARD_SIZE)`
  is currently read-protected. -/
  guardProtected : Bool
  /-- Whether `GetBlockCache()->InvalidateICache(0, 0xffffffff, true)` has
  run (the whole block cache invalidated). -/
  blockCacheInvalidated : Bool
  /-- Whether `CoreTiming::ForceExceptionCheck(0)` has run. -/
  forcedExceptionCheck : Bool
  deriving DecidableEq, Repr

/-- The process facts `HandleFault` consults besides the `Jit64` state:
the stack base `m_stack`, whether the faulting thread is the CPU thread
(`Core::IsCPUThread()`), the fastmem physical and logical base pointers,
and the outcome `BackPatch` would produce for a given guest offset. -/
structure FaultEnv where
  stackBase : Nat
  isCpuThread : Bool
  physicalBase : Nat
  logicalBase : Nat
  backPatchResult : Nat → Bool

/-- `Jit64::HandleStackFault` (Jit.cpp lines 186-213).  Bails out (returning
false, with no state change) when BLR optimization is off or the fault came
from a thread other than the CPU thread; otherwise disables the BLR
optimization, unprotects the trigger guard, invalidates the entire block
cache, forces an immediate exception check, sets
`m_cleanup_after_stackfault`, and returns true. -/
def HandleStackFault (env : FaultEnv) (s : JitFaultState) : Bool × JitFaultState :=
  if s.enableBlrOptimization = false ∨ env.isCpuThread = false then
    (false, s)
  else
    (true,
      { s with
        enableBlrOptimization := false
        guardProtected := false
        blockCacheInvalidated := true
        forcedExceptionCheck := true
        cleanupAfterStackfault := true })

/-- `Jit64::HandleFault` (Jit.cpp lines 215-240).  The trigger-guard branch
fires only when `m_enable_blr_optimization` is set and
`access_address - m_stack` lies in `[GUARD_OFFSET, GUARD_OFFSET +
GUARD_SIZE)`; otherwise the two fastmem windows are checked and the fault
is forwarded to `BackPatch`, else false is returned.  (The C++ computes
the guard test through wrapping `uintptr_t` subtraction; for fault
addresses at or above the stack base the comparison below is the same
test.) -/
def HandleFault (env : FaultEnv) (s : JitFaultState) (accessAddress : Nat) :
    Bool × JitFaultState :=
  if s.enableBlrOptimization = true ∧ env.stackBase + GUARD_OFFSET ≤ accessAddress ∧
      accessAddress < env.stackBase + GUARD_OFFSET + GUARD_SIZE then
    HandleStackFault env s
  else if env.physicalBase ≤ accessAddress ∧
      accessAddress < env.physicalBase + 0x100010000 then
    (env.backPatchResult (accessAddress - env.physicalBase), s)
  else if env.logicalBase ≤ accessAddress ∧
      accessAddress < env.logicalBase + 0x100010000 then
    (env.backPatchResult (accessAddress - env.logicalBase), s)
  else
    (false, s)

/-- The `m_cleanup_after_stackfault` check at the top of `Jit64::Jit`
(Jit.cpp lines 771-779): when the flag is set, the translator entry clears
the whole JIT cache (and on Windows restores the stack guard page via
`_resetstkoflw`) and resets the flag.  Returns the new state and whether
the cleanup ran. -/
def jitEntryStackfaultCleanup (s : JitFaultState) : JitFaultState × Bool :=
  if s.cleanupAfterStackfault = true then
    ({ s with cleanupAfterStackfault := false, guardProtected := true }, true)
  else
    (s, false)

/-! ## Jit.cpp: translation retry logic (`Jit`, `SetEmitterStateToFreeCodeRegion`) -/

/-- The free-range sets consulted by `SetEmitterStateToFreeCodeRegion`:
whether each region's interval set has at least one free span
(`by_size_begin() != by_size_end()`). -/
structure FreeRanges where
  nearHasFree : Bool
  farHasFree : Bool
  deriving DecidableEq, Repr

/-- `Jit64::SetEmitterStateToFreeCodeRegion` (Jit.cpp lines 886-907):
succeeds exactly when both the near and the far free-range set contain a
free span (the emitters are then pointed at the largest spans). -/
def SetEmitterStateToFreeCodeRegion (fr : FreeRanges) : Bool :=
  fr.nearHasFree && fr.farHasFree

/-- What the translator environment determines about each compilation
attempt (attempts are numbered from 0; a cache clear changes the free
ranges, hence the indexing). -/
structure JitEnv where
  /-- `code_block.m_memory_exception` from the analyzer (same address, so
  the same on a retry). -/
  memException : Bool
  /-- The free-range sets seen by attempt `n`. -/
  freeRanges : Nat → FreeRanges
  /-- Whether `DoJit` succeeds on attempt `n` (no emitter write failure). -/
  doJitOk : Nat → Bool

/-- Attempt `n` of `Jit64::Jit` compiles successfully exactly when
`SetEmitterStateToFreeCodeRegion` finds space and `DoJit` does not run out
of it (Jit.cpp lines 840-868). -/
def jitAttemptSucceeds (env : JitEnv) (n : Nat) : Bool :=
  SetEmitterStateToFreeCodeRegion (env.freeRanges n) && env.doJitOk n

/-- Outcome of a `Jit64::Jit` call. -/
inductive JitOutcome where
  /-- Returned after raising a guest ISI (analysis memory exception). -/
  | isi
  /-- A block was generated and finalized. -/
  | compiled
  /-- `PanicAlertFmtT` + `std::exit(-1)`: the fatal user-visible path. -/
  | fatal
  deriving DecidableEq, Repr

/-- `Jit64::Jit(em_address, clear_cache_and_retry_on_failure)` (Jit.cpp
lines 769-884), restricted to its failure-control flow.  The boolean flag
is modelled by the number of clear-and-retry rounds still allowed (`true`
is 1, `false` is 0, matching the recursive call `Jit(em_address, false)`).
Returns the outcome and the number of ClearCache-and-retry rounds that
were performed. -/
def jitTranslate (env : JitEnv) : Nat → Nat → JitOutcome × Nat
  | attempt, 0 =>
    if env.memException then (JitOutcome.isi, 0)
    else if jitAttemptSucceeds env attempt then (JitOutcome.compiled, 0)
    else (JitOutcome.fatal, 0)
  | attempt, n + 1 =>
    if env.memException then (JitOutcome.isi, 0)
    else if jitAttemptSucceeds env attempt then (JitOutcome.compiled, 0)
    else
      -- ClearCache(); Jit(em_address, false);
      let p := jitTranslate env (attempt + 1) n
      (p.1, p.2 + 1)

/-- The public entry `Jit64::Jit(em_address)` calls
`Jit(em_address, true)` (Jit.cpp lines 764-767). -/
def Jit64Jit (env : JitEnv) : JitOutcome × Nat :=
  jitTranslate env 0 1

/-! ## Jit.cpp: block exit writers

The emitted host code is abstracted to the instruction granularity the
downcount claim needs: every `SUB(32, PPCSTATE(downcount), ...)` becomes a
`subDowncount` carrying the subtracted cycle count, and the remaining
emitted operations keep their identity but not their x86 encoding.  Near
and far code are kept in one list (the far stubs are emitted by the same
writer call). -/

inductive EmitInst where
  /-- `SUB(32, PPCSTATE(downcount), ...)` subtracting `amount` cycles.  In
  `WriteBLRExit` the subtrahend is register `RSCRATCH2`, loaded with
  `Imm32(js.downcountAmount)` two instructions earlier (lines 675-678);
  the carried amount is that immediate. -/
  | subDowncount (amount : Nat)
  /-- The conditional `UpdateGatherPipe` call block of `Cleanup`. -/
  | updateGatherPipe
  /-- The `UpdatePerformanceMonitor` call block of `Cleanup`. -/
  | updatePerfMon
  /-- The block-profiling epilogue of `Cleanup`. -/
  | profileEpilogue
  /-- `MOV(32, PPCSTATE(pc), Imm32 v)`. -/
  | movPcImm (v : Nat)
  /-- `MOV(32, PPCSTATE(pc), R(RSCRATCH))`. -/
  | movPcFromScratch
  /-- Reload `RSCRATCH` from `PPCSTATE(pc)` (`WriteBLRExit` after a
  disturbing `Cleanup`, line 674). -/
  | movScratchFromPc
  /-- `MOV(32, PPCSTATE(npc), R(RSCRATCH))` (after loading pc). -/
  | movNpcFromPc
  /-- `MOV(32, R(RSCRATCH2), Imm32 v)`. -/
  | loadScratch2Imm (v : Nat)
  /-- `PUSH(RSCRATCH2)`: push the BL return-address hint. -/
  | pushRetAddr
  /-- `POP(RSCRATCH)` / `POP(RSCRATCH2)`. -/
  | popRetAddr
  /-- `CMP(64, R(RSCRATCH), MDisp(RSP, 8))`: BLR hint compare. -/
  | cmpStackTop
  /-- Conditional branch to the `do_timing` far stub. -/
  | jccDoTiming
  /-- Conditional branch to `dispatcher_mispredicted_blr`. -/
  | jccMispredictedBlr
  /-- `CALL(asm_routines.do_timing)` in the far stub. -/
  | callDoTiming
  /-- `CALL(asm_routines.dispatcher_no_timing_check)`. -/
  | callDispatcherNoTimingCheck
  /-- `CALL(asm_routines.dispatcher)`. -/
  | callDispatcher
  /-- `JMP(asm_routines.dispatcher_no_timing_check, true)`. -/
  | jmpDispatcherNoTimingCheck
  /-- `JMP(asm_routines.dispatcher, true)`. -/
  | jmpDispatcher
  /-- The `PowerPC::CheckExceptions` ABI call block. -/
  | callCheckExceptions
  /-- The `PowerPC::CheckExternalExceptions` ABI call block. -/
  | callCheckExternalExceptions
  /-- `RET()`. -/
  | retHost
  deriving DecidableEq, Repr

/-- The compile-time facts `Jit64::Cleanup` branches on. -/
structure CleanupCfg where
  /-- `jo.optimizeGatherPipe && js.fifoBytesSinceCheck > 0`. -/
  gatherPipe : Bool
  /-- `MMCR0.Hex || MMCR1.Hex`. -/
  perfMon : Bool
  /-- `jo.profile_blocks`. -/
  profileBlocks : Bool
  deriving DecidableEq, Repr

/-- `Jit64::Cleanup` (Jit.cpp lines 519-564): emits the gather-pipe flush
check, the performance-monitor update, and the profiling epilogue, each
conditionally; its return value reports whether anything was emitted. -/
def Cleanup (cfg : CleanupCfg) : List EmitInst :=
  (if cfg.gatherPipe then [EmitInst.updateGatherPipe] else []) ++
    (if cfg.perfMon then [EmitInst.updatePerfMon] else []) ++
      (if cfg.profileBlocks then [EmitInst.profileEpilogue] else [])

/-- The `did_something` return value of `Cleanup`. -/
def cleanupDidSomething (cfg : CleanupCfg) : Bool :=
  cfg.gatherPipe || cfg.perfMon || cfg.profileBlocks

/-- The `bl = false` body of `Jit64::JustWriteExit` (Jit.cpp lines
628-633): set pc, conditional branch to `do_timing` on `downcount <= 0`,
then jump to the no-timing-check dispatcher. -/
def justWriteExitPlain (destination : Nat) : List EmitInst :=
  [EmitInst.movPcImm destination, EmitInst.jccDoTiming,
    EmitInst.jmpDispatcherNoTimingCheck]

/-- `Jit64::JustWriteExit` (Jit.cpp lines 599-636).  For `bl = true` the
writer emits the far `do_timing` stub, the near
`CALL dispatcher_no_timing_check`, and behind the call the `POP` plus the
recursive `JustWriteExit(after, false, 0)` continuation; the recursion
always passes `bl = false`, inlined here as `justWriteExitPlain`. -/
def JustWriteExit (destination : Nat) (bl : Bool) (after : Nat) : List EmitInst :=
  if bl then
    [EmitInst.movPcImm destination, EmitInst.jccDoTiming, EmitInst.callDoTiming,
      EmitInst.callDispatcherNoTimingCheck, EmitInst.popRetAddr] ++
      justWriteExitPlain after
  else
    justWriteExitPlain destination

/-- `Jit64::WriteExit` (Jit.cpp lines 581-597): `bl` is forced off when the
BLR optimization is disabled; after `Cleanup` and the optional BL hint
push, the block's `downcountAmount` is subtracted from
`PPCSTATE(downcount)`, then `JustWriteExit` finishes the exit. -/
def WriteExit (enableBlr : Bool) (cfg : CleanupCfg) (downcountAmount : Nat)
    (destination : Nat) (bl : Bool) (after : Nat) : List EmitInst :=
  let bl := bl && enableBlr
  Cleanup cfg ++
    (if bl then [EmitInst.loadScratch2Imm after, EmitInst.pushRetAddr] else []) ++
      [EmitInst.subDowncount downcountAmount] ++ JustWriteExit destination bl after

/-- `Jit64::WriteExitDestInRSCRATCH` (Jit.cpp lines 638-662). -/
def WriteExitDestInRSCRATCH (enableBlr : Bool) (cfg : CleanupCfg)
    (downcountAmount : Nat) (bl : Bool) (after : Nat) : List EmitInst :=
  let bl := bl && enableBlr
  [EmitInst.movPcFromScratch] ++ Cleanup cfg ++
    (if bl then [EmitInst.loadScratch2Imm after, EmitInst.pushRetAddr] else []) ++
      [EmitInst.subDowncount downcountAmount] ++
        (if bl then
          [EmitInst.callDispatcher, EmitInst.popRetAddr] ++ justWriteExitPlain after
        else
          [EmitInst.jmpDispatcher])

/-- `Jit64::WriteBLRExit` (Jit.cpp lines 664-680): without the BLR
optimization this is `WriteExitDestInRSCRATCH()` (defaults `bl = false`,
`after = 0`); with it, the writer compares the return hint on the host
stack and, on a match, subtracts the downcount and `RET`s. -/
def WriteBLRExit (enableBlr : Bool) (cfg : CleanupCfg) (downcountAmount : Nat) :
    List EmitInst :=
  if !enableBlr then
    WriteExitDestInRSCRATCH enableBlr cfg downcountAmount false 0
  else
    [EmitInst.movPcFromScratch] ++ Cleanup cfg ++
      (if cleanupDidSomething cfg then [EmitInst.movScratchFromPc] else []) ++
        [EmitInst.loadScratch2Imm downcountAmount, EmitInst.cmpStackTop,
          EmitInst.jccMispredictedBlr, EmitInst.subDowncount downcountAmount,
          EmitInst.retHost]

/-- `Jit64::WriteRfiExitDestInRSCRATCH` (Jit.cpp lines 682-692). -/
def WriteRfiExitDestInRSCRATCH (cfg : CleanupCfg) (downcountAmount : Nat) :
    List EmitInst :=
  [EmitInst.movPcFromScratch, EmitInst.movNpcFromPc] ++ Cleanup cfg ++
    [EmitInst.callCheckExceptions, EmitInst.subDowncount downcountAmount,
      EmitInst.jmpDispatcher]

/-- `Jit64::WriteExceptionExit` (Jit.cpp lines 703-713). -/
def WriteExceptionExit (cfg : CleanupCfg) (downcountAmount : Nat) : List EmitInst :=
  Cleanup cfg ++
    [EmitInst.movNpcFromPc, EmitInst.callCheckExceptions,
      EmitInst.subDowncount downcountAmount, EmitInst.jmpDispatcher]

/-- `Jit64::WriteExternalExceptionExit` (Jit.cpp lines 715-725). -/
def WriteExternalExceptionExit (cfg : CleanupCfg) (downcountAmount : Nat) :
    List EmitInst :=
  Cleanup cfg ++
    [EmitInst.movNpcFromPc, EmitInst.callCheckExternalExceptions,
      EmitInst.subDowncount downcountAmount, EmitInst.jmpDispatcher]

/-- The downcount subtractions of an emitted sequence, in order, with
their amounts. -/
def downcountSubs (l : List EmitInst) : List Nat :=
  l.filterMap fun i =>
    match i with
    | EmitInst.subDowncount a => some a
    | _ => none

/-! ## Jit.cpp: block entry points (`DoJit`) -/

/-- `AlignCode4`: round the emitter position up to a 4-byte boundary. -/
def alignCode4 (p : Nat) : Nat := (p + 3) / 4 * 4

/-- The two entry-point fields of a block. -/
structure BlockEntries where
  checkedEntry : Nat
  normalEntry : Nat
  deriving DecidableEq, Repr

/-- The entry-point setup of `Jit64::DoJit` (Jit.cpp lines 920-923): the
emitter is aligned to 4 bytes and the resulting address is stored into
both `b->checkedEntry` and `b->normalEntry`. -/
def doJitSetEntryPoints (codePtr : Nat) : BlockEntries :=
  let start := alignCode4 codePtr
  { checkedEntry := start, normalEntry := start }

/-! ## Jit.cpp: speculative GQR specialization (`ComputeStaticGQRs`, `DoJit`) -/

/-- `BitSet8` over GQR indices, as a finite set of `Fin 8`. -/
abbrev GqrSet : Type := Finset (Fin 8)

/-- `Jit64::ComputeStaticGQRs` (Jit.cpp lines 1238-1241):
`cb.m_gqr_used & ~cb.m_gqr_modified`. -/
def ComputeStaticGQRs (gqrUsed gqrModified : GqrSet) : GqrSet :=
  gqrUsed ∩ gqrModifiedᶜ

/-- The emitted shape of the GQR speculation preamble at instruction
granularity. -/
inductive GqrInst where
  /-- The far-code bail stub (Jit.cpp lines 968-976): set
  `PPCSTATE(pc) = blockStart`, call
  `JitInterface::CompileExceptionCheck(PairedQuantize)` — which marks this
  PC's GQR speculation invalid and forces a retranslation — and jump to
  `dispatcher_no_check`. -/
  | farBailStub (blockStart : Nat)
  /-- `CMP_or_TEST(32, PPCSTATE(spr[SPR_GQR0 + gqr]), Imm32 value)`. -/
  | cmpGqr (gqr : Fin 8) (value : Nat)
  /-- `J_CC(CC_NZ, target)` to the bail stub, for this GQR's compare. -/
  | jccToBail (gqr : Fin 8)
  deriving DecidableEq, Repr

/-- The GQR speculation preamble of `Jit64::DoJit` (Jit.cpp lines
962-989).  When the block's start address is not in
`js.pairedQuantizeAddresses` (the no-speculate blacklist) and the static
GQR set is nonempty, the writer emits the far bail stub and then, for each
static GQR in ascending index order, a compare of the GQR's current value
against the recorded one with a conditional jump to the stub.  Returns the
emitted instructions and the resulting `js.constantGqrValid` bitset. -/
def emitGqrSpeculation (blockStart : Nat) (blacklisted : Bool)
    (gqrUsed gqrModified : GqrSet) (gqrValue : Fin 8 → Nat) :
    List GqrInst × GqrSet :=
  if blacklisted then ([], ∅)
  else
    let gqr_static := ComputeStaticGQRs gqrUsed gqrModified
    if gqr_static = ∅ then ([], ∅)
    else
      (GqrInst.farBailStub blockStart ::
        (gqr_static.sort (· ≤ ·)).flatMap
          (fun gqr => [GqrInst.cmpGqr gqr (gqrValue gqr), GqrInst.jccToBail gqr]),
        gqr_static)

/-- Position of the first occurrence of an event in an event list (the
list length when absent). -/
def eventIndex (e : GpuLoopEvent) : List GpuLoopEvent → Nat
  | [] => 0
  | x :: xs => if x = e then 0 else eventIndex e xs + 1

end Dolphin

namespace Dolphin

/-! # Theorems -/

/-! ## General lemmas shared by the claim proofs -/

theorem downcountSubs_append (a b : List EmitInst) :
    downcountSubs (a ++ b) = downcountSubs a ++ downcountSubs b := by
  simp [downcountSubs]

theorem downcountSubs_cleanup (cfg : CleanupCfg) :
    downcountSubs (Cleanup cfg) = [] := by
  rcases cfg with ⟨g, p, pr⟩
  cases g <;> cases p <;> cases pr <;> rfl

theorem downcountSubs_justWriteExitPlain (d : Nat) :
    downcountSubs (justWriteExitPlain d) = [] := rfl

theorem downcountSubs_justWriteExit (d : Nat) (b : Bool) (a : Nat) :
    downcountSubs (JustWriteExit d b a) = [] := by
  cases b <;> rfl

/-- C10 (claim): `PopFifoAuxBuffer(size)` returns the old aux read pointer
and unconditionally advances the read pointer by `size`, with no bounds
check against the aux write pointer or the 2 MiB buffer end: this holds
for every `size` and every pointer state, and in particular a pop of
`FIFO_SIZE + 1` bytes from an empty aux FIFO moves the read pointer past
the buffer end. -/
theorem popFifoAuxBuffer_unchecked :
    (∀ (size : Nat) (s : AuxFifo),
      (PopFifoAuxBuffer size s).1 = s.readPtr ∧
        (PopFifoAuxBuffer size s).2 =
          { readPtr := s.readPtr + size, writePtr := s.writePtr }) ∧
      (PopFifoAuxBuffer (FIFO_SIZE + 1) { readPtr := 0, writePtr := 0 }).2.readPtr =
        FIFO_SIZE + 1 := by
  exact ⟨fun size s => ⟨rfl, rfl⟩, by simp [PopFifoAuxBuffer]⟩

/-- C8 (counterexample): the claim asserts that every block's
`checked_entry` and `normal_entry` differ in behavior; but `DoJit` stores
the same aligned address into both fields, so for the block emitted at
code pointer 0 the two entry points are the very same host address. -/
theorem doJit_entry_points_equal_counterexample :
    (doJitSetEntryPoints 0).checkedEntry = (doJitSetEntryPoints 0).normalEntry := rfl

/-- C8 (amended): for every block produced by this translator,
`checked_entry` and `normal_entry` are both set to the same 4-byte-aligned
start of the emitted code; no block-local downcount check distinguishes
them (the downcount check lives in the dispatcher's assembly routines). -/
theorem doJit_entry_points_equal (codePtr : Nat) :
    (doJitSetEntryPoints codePtr).checkedEntry =
        (doJitSetEntryPoints codePtr).normalEntry ∧
      (doJitSetEntryPoints codePtr).normalEntry = alignCode4 codePtr := ⟨rfl, rfl⟩

/-- C7 (counterexample): the claim asserts the deterministic GPU loop
iteration reads the write pointer first and the seen pointer second; in
the code the load of `s_video_buffer_seen_ptr` (Fifo.cpp line 346) comes
before the load of `s_video_buffer_write_ptr` (line 347), so at the
concrete observation `seen = 0`, `write = 32` the write-pointer read does
not precede the seen-pointer read. -/
theorem gpuLoop_read_order_counterexample :
    ¬ eventIndex GpuLoopEvent.readWritePtr (runGpuLoopDetIterEvents 0 32) <
        eventIndex GpuLoopEvent.readSeenPtr (runGpuLoopDetIterEvents 0 32) := by
  decide

/-- C7 (amended): in dual-core deterministic mode, the GPU loop iteration
reads the seen pointer first and the write pointer second (given that the
CPU writes `write` before `seen`, this read order is what makes a spurious
`write > seen` impossible); the loop decodes exactly when the observed
`write` exceeds the observed `seen`, and then advances `seen` to the
observed `write`. -/
theorem gpuLoop_read_order (seenObserved writeObserved : Nat) :
    eventIndex GpuLoopEvent.readSeenPtr
        (runGpuLoopDetIterEvents seenObserved writeObserved) <
      eventIndex GpuLoopEvent.readWritePtr
        (runGpuLoopDetIterEvents seenObserved writeObserved) ∧
    (GpuLoopEvent.runDecoder ∈ runGpuLoopDetIterEvents seenObserved writeObserved ↔
      seenObserved < writeObserved) ∧
    ((runGpuLoopDetIterAdvance seenObserved writeObserved).1 = true ↔
      seenObserved < writeObserved) ∧
    (runGpuLoopDetIterAdvance seenObserved writeObserved).2 =
      (if seenObserved < writeObserved then writeObserved else seenObserved) := by
  by_cases h : seenObserved < writeObserved <;>
    simp [runGpuLoopDetIterEvents, runGpuLoopDetIterAdvance, eventIndex, h]

/-- C1 (claim): for every translator environment, `Jit(em_address)` (which
passes `clear_cache_and_retry_on_failure = true`) performs at most one
ClearCache-and-retry round; it reaches the fatal user-visible exit exactly
when analysis raised no memory exception and both the first and the
retried compilation attempt fail to find usable code space, and on that
fatal path exactly one ClearCache-and-retry happened before it. -/
theorem jit_clear_retry_once (env : JitEnv) :
    (Jit64Jit env).2 ≤ 1 ∧
    ((Jit64Jit env).1 = JitOutcome.fatal ↔
      env.memException = false ∧ jitAttemptSucceeds env 0 = false ∧
        jitAttemptSucceeds env 1 = false) ∧
    ((Jit64Jit env).1 = JitOutcome.fatal → (Jit64Jit env).2 = 1) := by
  cases hm : env.memException <;>
    cases h0 : jitAttemptSucceeds env 0 <;>
      cases h1 : jitAttemptSucceeds env 1 <;>
        simp [Jit64Jit, jitTranslate, hm, h0, h1]

/-- C1 (witness): in an environment where analysis succeeds but the free
range sets stay empty on both attempts, `Jit` reports the fatal outcome
after exactly one ClearCache-and-retry. -/
theorem jit_clear_retry_once_witness :
    (Jit64Jit
        { memException := false
          freeRanges := fun _ => { nearHasFree := false, farHasFree := false }
          doJitOk := fun _ => false }).1 = JitOutcome.fatal ∧
      (Jit64Jit
        { memException := false
          freeRanges := fun _ => { nearHasFree := false, farHasFree := false }
          doJitOk := fun _ => false }).2 = 1 := by
  have h := jit_clear_retry_once
    { memException := false
      freeRanges := fun _ => { nearHasFree := false, farHasFree := false }
      doJitOk := fun _ => false }
  have hfatal := h.2.1.mpr ⟨rfl, rfl, rfl⟩
  exact ⟨hfatal, h.2.2 hfatal⟩

/-- C2 (claim): each block exit writer — the plain exit, the BL exit
(`WriteExit` with `bl`), the register-destination exits, the BLR exit, the
RFI exit, and both exception exits — emits exactly one subtraction from
`PPCSTATE(downcount)`, and the amount subtracted is the block's aggregated
`js.downcountAmount`, for every combination of the BLR-optimization flag,
the `Cleanup` configuration, and the `bl` argument. -/
theorem exit_writers_subtract_downcount_once (enableBlr : Bool) (cfg : CleanupCfg)
    (downcountAmount destination after : Nat) (bl : Bool) :
    downcountSubs (WriteExit enableBlr cfg downcountAmount destination bl after) =
        [downcountAmount] ∧
    downcountSubs (WriteExitDestInRSCRATCH enableBlr cfg downcountAmount bl after) =
        [downcountAmount] ∧
    downcountSubs (WriteBLRExit enableBlr cfg downcountAmount) = [downcountAmount] ∧
    downcountSubs (WriteRfiExitDestInRSCRATCH cfg downcountAmount) =
        [downcountAmount] ∧
    downcountSubs (WriteExceptionExit cfg downcountAmount) = [downcountAmount] ∧
    downcountSubs (WriteExternalExceptionExit cfg downcountAmount) =
        [downcountAmount] := by
  rcases cfg with ⟨g, p, pr⟩
  cases enableBlr <;> cases bl <;> cases g <;> cases p <;> cases pr <;>
    exact ⟨rfl, rfl, rfl, rfl, rfl, rfl⟩

/-- C4 (counterexample): the claim asserts that every host fault whose
address lies in the trigger-guard window is handled with a true return and
the BLR-disable side effects; but `HandleStackFault` first checks
`Core::IsCPUThread()` and bails out.  For a fault at
`stack + GUARD_OFFSET` raised while `Core::IsCPUThread()` is false (guard
window hit, BLR optimization enabled), `handle_fault` returns false and
leaves the translator state untouched. -/
theorem handleFault_guard_window_counterexample :
    (HandleFault
        { stackBase := 0x700000000000, isCpuThread := false,
          physicalBase := 0x100000000000, logicalBase := 0x200000000000,
          backPatchResult := fun _ => false }
        { enableBlrOptimization := true, cleanupAfterStackfault := false,
          guardProtected := true, blockCacheInvalidated := false,
          forcedExceptionCheck := false }
        (0x700000000000 + GUARD_OFFSET)).1 = false ∧
    (HandleFault
        { stackBase := 0x700000000000, isCpuThread := false,
          physicalBase := 0x100000000000, logicalBase := 0x200000000000,
          backPatchResult := fun _ => false }
        { enableBlrOptimization := true, cleanupAfterStackfault := false,
          guardProtected := true, blockCacheInvalidated := false,
          forcedExceptionCheck := false }
        (0x700000000000 + GUARD_OFFSET)).2.enableBlrOptimization = true := by
  constructor <;> rfl

/-- C4 (amended): a host fault whose address lies in the trigger-guard
window `[stack + GUARD_OFFSET, stack + GUARD_OFFSET + GUARD_SIZE)` —
provided the BLR optimization is currently enabled and the fault was
raised on the CPU thread — causes the handler to unprotect the guard,
disable the BLR optimization (it is never re-enabled afterwards),
invalidate the entire block cache, force an immediate exception check, set
`m_cleanup_after_stackfault` so the next translator entry performs the
cleanup that reinstates the stack guard, and return true. -/
theorem handleFault_guard_window (env : FaultEnv) (s : JitFaultState) (addr : Nat)
    (hblr : s.enableBlrOptimization = true)
    (hcpu : env.isCpuThread = true)
    (hlo : env.stackBase + GUARD_OFFSET ≤ addr)
    (hhi : addr < env.stackBase + GUARD_OFFSET + GUARD_SIZE) :
    (HandleFault env s addr).1 = true ∧
    (HandleFault env s addr).2.enableBlrOptimization = false ∧
    (HandleFault env s addr).2.guardProtected = false ∧
    (HandleFault env s addr).2.blockCacheInvalidated = true ∧
    (HandleFault env s addr).2.forcedExceptionCheck = true ∧
    (HandleFault env s addr).2.cleanupAfterStackfault = true ∧
    (jitEntryStackfaultCleanup (HandleFault env s addr).2).2 = true ∧
    (jitEntryStackfaultCleanup (HandleFault env s addr).2).1.guardProtected = true := by
  have hcase : HandleFault env s addr = HandleStackFault env s := by
    unfold HandleFault
    rw [if_pos ⟨hblr, hlo, hhi⟩]
  have hstack : HandleStackFault env s =
      (true,
        { s with
          enableBlrOptimization := false
          guardProtected := false
          blockCacheInvalidated := true
          forcedExceptionCheck := true
          cleanupAfterStackfault := true }) := by
    unfold HandleStackFault
    rw [if_neg]
    simp [hblr, hcpu]
  rw [hcase, hstack]
  simp [jitEntryStackfaultCleanup]

/-- C4 (witness): a concrete guard-window fault on the CPU thread with the
BLR optimization enabled takes the full recovery path. -/
theorem handleFault_guard_window_witness :
    (HandleFault
        { stackBase := 0x700000000000, isCpuThread := true,
          physicalBase := 0x100000000000, logicalBase := 0x200000000000,
          backPatchResult := fun _ => false }
        { enableBlrOptimization := true, cleanupAfterStackfault := false,
          guardProtected := true, blockCacheInvalidated := false,
          forcedExceptionCheck := false }
        (0x700000000000 + GUARD_OFFSET)).1 = true ∧
    (HandleFault
        { stackBase := 0x700000000000, isCpuThread := true,
          physicalBase := 0x100000000000, logicalBase := 0x200000000000,
          backPatchResult := fun _ => false }
        { enableBlrOptimization := true, cleanupAfterStackfault := false,
          guardProtected := true, blockCacheInvalidated := false,
          forcedExceptionCheck := false }
        (0x700000000000 + GUARD_OFFSET)).2.enableBlrOptimization = false := by
  have h := handleFault_guard_window
    { stackBase := 0x700000000000, isCpuThread := true,
      physicalBase := 0x100000000000, logicalBase := 0x200000000000,
      backPatchResult := fun _ => false }
    { enableBlrOptimization := true, cleanupAfterStackfault := false,
      guardProtected := true, blockCacheInvalidated := false,
      forcedExceptionCheck := false }
    (0x700000000000 + GUARD_OFFSET)
    rfl rfl (Nat.le_refl _) (by norm_num [GUARD_SIZE])
  exact ⟨h.1, h.2.1⟩

/-- C5 (claim): when the video ring's tail space is smaller than one
gather-pipe chunk, `ReadDataFromFifo` either panics and leaves the ring
unchanged (when even a front-aligned buffer cannot hold the unread bytes
plus one more chunk), or memmoves the unread contents `[read_ptr,
write_ptr)` to the front of the buffer, realigns the pointers, and copies
the new chunk behind them. -/
theorem readDataFromFifo_wrap (chunk : Nat → Nat) (r : VideoRing)
    (hrw : r.readPtr ≤ r.writePtr) (hwf : r.writePtr ≤ FIFO_SIZE)
    (htail : GATHER_PIPE_SIZE > FIFO_SIZE - r.writePtr) :
    (FIFO_SIZE < (r.writePtr - r.readPtr) + GATHER_PIPE_SIZE →
      ReadDataFromFifo chunk r = { r with panicked := true }) ∧
    ((r.writePtr - r.readPtr) + GATHER_PIPE_SIZE ≤ FIFO_SIZE →
      (ReadDataFromFifo chunk r).readPtr = 0 ∧
      (ReadDataFromFifo chunk r).writePtr =
        (r.writePtr - r.readPtr) + GATHER_PIPE_SIZE ∧
      (∀ i, i < r.writePtr - r.readPtr →
        (ReadDataFromFifo chunk r).buf i = r.buf (r.readPtr + i)) ∧
      (∀ i, i < GATHER_PIPE_SIZE →
        (ReadDataFromFifo chunk r).buf ((r.writePtr - r.readPtr) + i) = chunk i) ∧
      (ReadDataFromFifo chunk r).panicked = r.panicked) := by
  have hlen : r.writePtr - r.readPtr ≤ FIFO_SIZE :=
    le_trans (Nat.sub_le _ _) hwf
  constructor
  · intro hbig
    unfold ReadDataFromFifo
    rw [if_pos htail,
      if_pos (show GATHER_PIPE_SIZE > FIFO_SIZE - (r.writePtr - r.readPtr) by omega)]
  · intro hfit
    have hnopanic : ¬ GATHER_PIPE_SIZE > FIFO_SIZE - (r.writePtr - r.readPtr) := by
      omega
    unfold ReadDataFromFifo
    rw [if_pos htail, if_neg hnopanic]
    refine ⟨rfl, rfl, ?_, ?_, rfl⟩
    · intro i hi
      show (if r.writePtr - r.readPtr ≤ i ∧
          i < (r.writePtr - r.readPtr) + GATHER_PIPE_SIZE then
            chunk (i - (r.writePtr - r.readPtr))
          else if i < r.writePtr - r.readPtr then r.buf (r.readPtr + i)
          else r.buf i) = r.buf (r.readPtr + i)
      rw [if_neg (by omega), if_pos hi]
    · intro i hi
      show (if r.writePtr - r.readPtr ≤ (r.writePtr - r.readPtr) + i ∧
          (r.writePtr - r.readPtr) + i <
            (r.writePtr - r.readPtr) + GATHER_PIPE_SIZE then
            chunk ((r.writePtr - r.readPtr) + i - (r.writePtr - r.readPtr))
          else if (r.writePtr - r.readPtr) + i < r.writePtr - r.readPtr then
            r.buf (r.readPtr + ((r.writePtr - r.readPtr) + i))
          else r.buf ((r.writePtr - r.readPtr) + i)) = chunk i
      rw [if_pos ⟨Nat.le_add_right _ _, by omega⟩, Nat.add_sub_cancel_left]

/-- C5 (witness): a ring whose write pointer sits 16 bytes before the
buffer end, with 48 unread bytes, is memmoved to the front: the new read
pointer is 0, the new write pointer is 48 + 32, and the first new-chunk
byte lands at offset 48. -/
theorem readDataFromFifo_wrap_witness :
    (ReadDataFromFifo (fun i => i + 100)
        { buf := fun i => i, readPtr := FIFO_SIZE - 64, writePtr := FIFO_SIZE - 16,
          panicked := false }).readPtr = 0 ∧
    (ReadDataFromFifo (fun i => i + 100)
        { buf := fun i => i, readPtr := FIFO_SIZE - 64, writePtr := FIFO_SIZE - 16,
          panicked := false }).writePtr = 48 + 32 ∧
    (ReadDataFromFifo (fun i => i + 100)
        { buf := fun i => i, readPtr := FIFO_SIZE - 64, writePtr := FIFO_SIZE - 16,
          panicked := false }).buf 48 = 100 := by
  have h := readDataFromFifo_wrap (fun i => i + 100)
    { buf := fun i => i, readPtr := FIFO_SIZE - 64, writePtr := FIFO_SIZE - 16,
      panicked := false }
    (by norm_num [FIFO_SIZE]) (by norm_num [FIFO_SIZE])
    (by norm_num [FIFO_SIZE, GATHER_PIPE_SIZE])
  have hfit : ((FIFO_SIZE - 16) - (FIFO_SIZE - 64)) + GATHER_PIPE_SIZE ≤ FIFO_SIZE := by
    norm_num [FIFO_SIZE, GATHER_PIPE_SIZE]
  obtain ⟨h0, hw, hkeep, hchunk, hp⟩ := h.2 hfit
  refine ⟨h0, ?_, ?_⟩
  · rw [hw]; norm_num [FIFO_SIZE, GATHER_PIPE_SIZE]
  · have := hchunk 0 (by norm_num [GATHER_PIPE_SIZE])
    have h48 : (FIFO_SIZE - 16) - (FIFO_SIZE - 64) + 0 = 48 := by
      norm_num [FIFO_SIZE]
    rw [h48] at this
    simpa using this

/-- C6 (claim): `WaitForGpuThread(ticks)` adds `ticks` to `sync_ticks` in
every case; when the counter was non-negative before the add and the GPU
mainloop is done it returns -1 without waking or blocking; otherwise it
calls `RunGpu` exactly when `old < min_distance ≤ old + ticks`, blocks on
the wakeup event exactly when `min_distance ≤ old + ticks` and
`max_distance ≤ old + ticks`, and returns a positive next reschedule
interval (`GPU_TIME_SLOT_SIZE + min_distance - now` while the GPU is still
below the wake threshold, `GPU_TIME_SLOT_SIZE` otherwise). -/
theorem waitForGpuThread_spec (cfg : SyncGpuConfig) (gpuLoopIsDone : Bool)
    (syncTicks ticks : Int) :
    (WaitForGpuThread cfg gpuLoopIsDone syncTicks ticks).newSyncTicks =
        syncTicks + ticks ∧
    (0 ≤ syncTicks ∧ gpuLoopIsDone = true →
      (WaitForGpuThread cfg gpuLoopIsDone syncTicks ticks).ret = -1 ∧
      (WaitForGpuThread cfg gpuLoopIsDone syncTicks ticks).ranGpu = false ∧
      (WaitForGpuThread cfg gpuLoopIsDone syncTicks ticks).blockedOnEvent = false) ∧
    (¬(0 ≤ syncTicks ∧ gpuLoopIsDone = true) →
      ((WaitForGpuThread cfg gpuLoopIsDone syncTicks ticks).ranGpu = true ↔
        syncTicks < cfg.minDistance ∧ cfg.minDistance ≤ syncTicks + ticks) ∧
      ((WaitForGpuThread cfg gpuLoopIsDone syncTicks ticks).blockedOnEvent = true ↔
        cfg.minDistance ≤ syncTicks + ticks ∧
          cfg.maxDistance ≤ syncTicks + ticks) ∧
      (WaitForGpuThread cfg gpuLoopIsDone syncTicks ticks).ret =
        (if syncTicks + ticks < cfg.minDistance then
          GPU_TIME_SLOT_SIZE + cfg.minDistance - (syncTicks + ticks)
        else GPU_TIME_SLOT_SIZE) ∧
      0 < (WaitForGpuThread cfg gpuLoopIsDone syncTicks ticks).ret) := by
  unfold WaitForGpuThread
  by_cases hidle : 0 ≤ syncTicks ∧ gpuLoopIsDone = true
  · rw [if_pos hidle]
    exact ⟨rfl, fun _ => ⟨rfl, rfl, rfl⟩, fun hc => absurd hidle hc⟩
  · rw [if_neg hidle]
    by_cases hmin : syncTicks + ticks < cfg.minDistance
    · rw [if_pos hmin]
      refine ⟨rfl, fun hc => absurd hc hidle, fun _ => ⟨?_, ?_, ?_, ?_⟩⟩
      · simp
      · simp [not_le.mpr hmin]
      · rw [if_pos hmin]
      · simp only [GPU_TIME_SLOT_SIZE]
        omega
    · rw [if_neg hmin]
      refine ⟨rfl, fun hc => absurd hc hidle, fun _ => ⟨?_, ?_, ?_, ?_⟩⟩
      · simp
      · simp [not_lt.mp hmin]
      · rw [if_neg hmin]
      · simp only [GPU_TIME_SLOT_SIZE]
        omega

/-- C6 (witness): with `min = 100`, `max = 200`, an awake GPU, `old = 50`
and `ticks = 100`, the call adds the ticks, wakes the GPU (old below, new
above the minimum distance), does not block, and returns one time slot. -/
theorem waitForGpuThread_spec_witness :
    (WaitForGpuThread { minDistance := 100, maxDistance := 200 } false 50 100).newSyncTicks
        = 150 ∧
    (WaitForGpuThread { minDistance := 100, maxDistance := 200 } false 50 100).ranGpu
        = true ∧
    (WaitForGpuThread { minDistance := 100, maxDistance := 200 } false 50 100).blockedOnEvent
        = false ∧
    (WaitForGpuThread { minDistance := 100, maxDistance := 200 } false 50 100).ret
        = 1000 := by
  have h := waitForGpuThread_spec { minDistance := 100, maxDistance := 200 } false 50 100
  have hni : ¬((0 : Int) ≤ 50 ∧ false = true) := by simp
  obtain ⟨hadd, _, hrest⟩ := h
  obtain ⟨hran, hblock, hret, _⟩ := hrest hni
  refine ⟨by simpa using hadd, hran.mpr (by norm_num), ?_, ?_⟩
  · rw [← Bool.not_eq_true]
    intro hb
    exact absurd (hblock.mp hb) (by norm_num)
  · rw [hret]
    norm_num [GPU_TIME_SLOT_SIZE]

/-- The consuming loop of `RunGpuOnCpu` outside deterministic mode splits
the pending chunks into a consumed prefix and the untouched remainder:
the final budget is the initial budget minus the decoder cycles of the
consumed prefix, and every consumed chunk was taken while the budget seen
at the loop head was still non-negative. -/
theorem runGpuOnCpuLoop_decomp (re : Bool) (chunks : List FifoChunk) :
    ∀ a : Int,
      ∃ consumed : List FifoChunk,
        chunks = consumed ++ (runGpuOnCpuLoop false re a chunks).2 ∧
        (runGpuOnCpuLoop false re a chunks).1 = a - chunkCycles consumed ∧
        ∀ pre c post, consumed = pre ++ c :: post → 0 ≤ a - chunkCycles pre := by
  induction chunks with
  | nil =>
    intro a
    refine ⟨[], by simp [runGpuOnCpuLoop], by simp [runGpuOnCpuLoop, chunkCycles], ?_⟩
    intro pre c post hpre
    exact absurd hpre (by simp)
  | cons c rest ih =>
    intro a
    by_cases h : re = true ∧ c.atBreakpoint = false ∧ 0 ≤ a
    · have hstep : runGpuOnCpuLoop false re a (c :: rest) =
          runGpuOnCpuLoop false re (a - c.cycles) rest := by
        simp [runGpuOnCpuLoop, h]
      obtain ⟨consumed, h1, h2, h3⟩ := ih (a - c.cycles)
      refine ⟨c :: consumed, ?_, ?_, ?_⟩
      · rw [hstep, List.cons_append]
        exact congrArg (List.cons c) h1
      · rw [hstep, h2]
        simp only [chunkCycles, List.map_cons, List.sum_cons]
        push_cast
        ring
      · intro pre c0 post hpre
        cases pre with
        | nil =>
          simpa [chunkCycles] using h.2.2
        | cons p ps =>
          rw [List.cons_append] at hpre
          obtain ⟨hpc, hcons⟩ := List.cons.inj hpre
          have hps := h3 ps c0 post hcons
          simp only [chunkCycles, List.map_cons, List.sum_cons, hpc] at hps ⊢
          push_cast at hps ⊢
          omega
    · refine ⟨[], by simp [runGpuOnCpuLoop, h],
        by simp [runGpuOnCpuLoop, h, chunkCycles], ?_⟩
      intro pre c0 post hpre
      exact absurd hpre (by simp)

/-- C3 (claim): in single-core mode (deterministic pre-decode off),
`RunGpuOnCpu(ticks)` computes `available = int(ticks * overclock) +
sync_ticks`, consumes FIFO chunks only while the budget seen at the loop
head is non-negative (deducting each chunk's decoder cycles), afterwards
stores `min(available, 0)` into `sync_ticks`, and returns -1 exactly when
the final budget is non-negative and `-available + 1000` (one
`GPU_TIME_SLOT_SIZE` of 1000 emulated cycles) otherwise. -/
theorem runGpuOnCpu_singlecore_spec (readEnable : Bool) (overclock : ℚ)
    (ticks syncTicks : Int) (chunks : List FifoChunk) :
    (RunGpuOnCpu false readEnable overclock ticks syncTicks chunks).newSyncTicks =
        min (RunGpuOnCpu false readEnable overclock ticks syncTicks
          chunks).finalAvailable 0 ∧
    (RunGpuOnCpu false readEnable overclock ticks syncTicks chunks).ret =
        (if 0 ≤ (RunGpuOnCpu false readEnable overclock ticks syncTicks
            chunks).finalAvailable then -1
          else -(RunGpuOnCpu false readEnable overclock ticks syncTicks
            chunks).finalAvailable + 1000) ∧
    ((RunGpuOnCpu false readEnable overclock ticks syncTicks chunks).ret = -1 ↔
      0 ≤ (RunGpuOnCpu false readEnable overclock ticks syncTicks
        chunks).finalAvailable) ∧
    ∃ consumed : List FifoChunk,
      chunks = consumed ++
          (RunGpuOnCpu false readEnable overclock ticks syncTicks chunks).remaining ∧
      (RunGpuOnCpu false readEnable overclock ticks syncTicks chunks).finalAvailable =
        (truncTowardZero ((ticks : ℚ) * overclock) + syncTicks) -
          chunkCycles consumed ∧
      ∀ pre c post, consumed = pre ++ c :: post →
        0 ≤ (truncTowardZero ((ticks : ℚ) * overclock) + syncTicks) -
          chunkCycles pre := by
  obtain ⟨consumed, h1, h2, h3⟩ :=
    runGpuOnCpuLoop_decomp readEnable chunks
      (truncTowardZero ((ticks : ℚ) * overclock) + syncTicks)
  have hfin : (RunGpuOnCpu false readEnable overclock ticks syncTicks
      chunks).finalAvailable =
      (runGpuOnCpuLoop false readEnable
        (truncTowardZero ((ticks : ℚ) * overclock) + syncTicks) chunks).1 := rfl
  have hrem : (RunGpuOnCpu false readEnable overclock ticks syncTicks
      chunks).remaining =
      (runGpuOnCpuLoop false readEnable
        (truncTowardZero ((ticks : ℚ) * overclock) + syncTicks) chunks).2 := rfl
  have hret : (RunGpuOnCpu false readEnable overclock ticks syncTicks chunks).ret =
      (if 0 ≤ (runGpuOnCpuLoop false readEnable
          (truncTowardZero ((ticks : ℚ) * overclock) + syncTicks) chunks).1 then
        (-1 : Int)
      else
        -(runGpuOnCpuLoop false readEnable
          (truncTowardZero ((ticks : ℚ) * overclock) + syncTicks) chunks).1 +
          GPU_TIME_SLOT_SIZE) := rfl
  refine ⟨rfl, ?_, ?_, consumed, ?_, ?_, h3⟩
  · rw [hret, hfin, GPU_TIME_SLOT_SIZE]
  · rw [hret, hfin]
    by_cases hf : 0 ≤ (runGpuOnCpuLoop false readEnable
        (truncTowardZero ((ticks : ℚ) * overclock) + syncTicks) chunks).1
    · simp [hf]
    · rw [if_neg hf]
      simp only [GPU_TIME_SLOT_SIZE]
      constructor
      · intro hc
        omega
      · intro hc
        exact absurd hc hf
  · rw [hrem]
    exact h1
  · rw [hfin]
    exact h2

/-- C3 (witness): with overclock 1, 10000 incoming ticks, zero stored sync
ticks and one pending 4000-cycle chunk, the final budget is non-negative,
so the call returns -1 and stores `min(available, 0)`. -/
theorem runGpuOnCpu_singlecore_spec_witness :
    (RunGpuOnCpu false true 1 10000 0
        [{ cycles := 4000, atBreakpoint := false }]).ret = -1 ∧
    (RunGpuOnCpu false true 1 10000 0
        [{ cycles := 4000, atBreakpoint := false }]).newSyncTicks =
      min (RunGpuOnCpu false true 1 10000 0
        [{ cycles := 4000, atBreakpoint := false }]).finalAvailable 0 := by
  have h := runGpuOnCpu_singlecore_spec true 1 10000 0
    [{ cycles := 4000, atBreakpoint := false }]
  have hA : truncTowardZero ((10000 : Int) * (1 : ℚ)) + (0 : Int) = (10000 : Int) := by
    norm_num [truncTowardZero]
  have hfin : (RunGpuOnCpu false true 1 10000 0
      [{ cycles := 4000, atBreakpoint := false }]).finalAvailable = 6000 := by
    show (runGpuOnCpuLoop false true (truncTowardZero ((10000 : Int) * (1 : ℚ)) + 0)
      [{ cycles := 4000, atBreakpoint := false }]).1 = 6000
    rw [hA]
    norm_num [runGpuOnCpuLoop]
  exact ⟨h.2.2.1.mpr (by rw [hfin]; norm_num), h.1⟩

/-- C9 (claim): for every block whose start address is not on the
no-speculate blacklist, the set of GQRs treated as static constants is
exactly `gqrs_used_by_block` minus `gqrs_modified_by_block`; when that set
is nonempty the translator emits (in the far region) one bail stub for
this PC forcing a GQR-speculation-invalid retry, and (in the near code)
one compare-against-recorded-value with a conditional jump to the stub for
each static GQR — and for no other GQR; when the set is empty nothing is
emitted. -/
theorem gqrSpeculation_spec (blockStart : Nat) (gqrUsed gqrModified : GqrSet)
    (gqrValue : Fin 8 → Nat) :
    (emitGqrSpeculation blockStart false gqrUsed gqrModified gqrValue).2 =
        gqrUsed \ gqrModified ∧
    (gqrUsed \ gqrModified ≠ ∅ →
      GqrInst.farBailStub blockStart ∈
          (emitGqrSpeculation blockStart false gqrUsed gqrModified gqrValue).1 ∧
        ∀ g : Fin 8, g ∈ gqrUsed \ gqrModified →
          GqrInst.cmpGqr g (gqrValue g) ∈
              (emitGqrSpeculation blockStart false gqrUsed gqrModified gqrValue).1 ∧
            GqrInst.jccToBail g ∈
              (emitGqrSpeculation blockStart false gqrUsed gqrModified gqrValue).1) ∧
    (∀ (g : Fin 8) (v : Nat),
      GqrInst.cmpGqr g v ∈
          (emitGqrSpeculation blockStart false gqrUsed gqrModified gqrValue).1 →
        g ∈ gqrUsed \ gqrModified ∧ v = gqrValue g) ∧
    (gqrUsed \ gqrModified = ∅ →
      (emitGqrSpeculation blockStart false gqrUsed gqrModified gqrValue).1 = []) := by
  have hsd : ComputeStaticGQRs gqrUsed gqrModified = gqrUsed \ gqrModified := by
    ext x
    simp [ComputeStaticGQRs]
  by_cases hempty : gqrUsed \ gqrModified = ∅
  · have hd : emitGqrSpeculation blockStart false gqrUsed gqrModified gqrValue =
        ([], ∅) := by
      unfold emitGqrSpeculation
      rw [if_neg Bool.false_ne_true, if_pos (hsd.trans hempty)]
    rw [hd]
    exact ⟨hempty.symm, fun hc => absurd hempty hc, fun g v hv => absurd hv (by simp),
      fun _ => rfl⟩
  · have hd : emitGqrSpeculation blockStart false gqrUsed gqrModified gqrValue =
        (GqrInst.farBailStub blockStart ::
          ((gqrUsed \ gqrModified).sort (· ≤ ·)).flatMap
            (fun gqr => [GqrInst.cmpGqr gqr (gqrValue gqr), GqrInst.jccToBail gqr]),
          gqrUsed \ gqrModified) := by
      unfold emitGqrSpeculation
      rw [if_neg Bool.false_ne_true]
      rw [hsd, if_neg hempty]
    rw [hd]
    refine ⟨rfl, fun _ => ⟨List.mem_cons_self _ _, fun g hg => ⟨?_, ?_⟩⟩,
      fun g v hv => ?_, fun hc => absurd hc hempty⟩
    · refine List.mem_cons_of_mem _ (List.mem_flatMap.mpr ⟨g, ?_, ?_⟩)
      · exact (Finset.mem_sort _).mpr hg
      · simp
    · refine List.mem_cons_of_mem _ (List.mem_flatMap.mpr ⟨g, ?_, ?_⟩)
      · exact (Finset.mem_sort _).mpr hg
      · simp
    · rcases List.mem_cons.mp hv with hhead | htail
      · exact absurd hhead (by simp)
      · obtain ⟨g0, hg0, hmem⟩ := List.mem_flatMap.mp htail
        have hg0s : g0 ∈ gqrUsed \ gqrModified := (Finset.mem_sort _).mp hg0
        rcases List.mem_cons.mp hmem with he | hrest
        · obtain ⟨hgg, hvv⟩ := GqrInst.cmpGqr.inj he
          subst hgg
          exact ⟨hg0s, hvv⟩
        · rcases List.mem_cons.mp hrest with he2 | hnil
          · exact absurd he2 (by simp)
          · exact absurd hnil (by simp)

/-- C9 (witness): a block at 0x80001234 using GQR 0 and GQR 1 but
modifying only GQR 1 has static set {0}; the emitted preamble contains the
far bail stub for that PC and the compare of GQR 0 against its recorded
value 7 with the conditional jump to the stub. -/
theorem gqrSpeculation_spec_witness :
    GqrInst.farBailStub 0x80001234 ∈
        (emitGqrSpeculation 0x80001234 false {0, 1} {1} (fun g => g.val + 7)).1 ∧
    GqrInst.cmpGqr 0 7 ∈
        (emitGqrSpeculation 0x80001234 false {0, 1} {1} (fun g => g.val + 7)).1 ∧
    GqrInst.jccToBail 0 ∈
        (emitGqrSpeculation 0x80001234 false {0, 1} {1} (fun g => g.val + 7)).1 := by
  have h := gqrSpeculation_spec 0x80001234 ({0, 1} : GqrSet) ({1} : GqrSet)
    (fun g => g.val + 7)
  have hne : ({0, 1} : GqrSet) \ ({1} : GqrSet) ≠ ∅ := by decide
  obtain ⟨hstub, hall⟩ := h.2.1 hne
  have h0 := hall 0 (by decide)
  exact ⟨hstub, h0.1, h0.2⟩

end Dolphin
